import Mathlib

/-!
Verification of `src/ikigai/components/model.py`.

The file is a thin client over a remote platform: builder objects
(`ModelBuilder`, `ModelDirectoryBuilder`), entity objects (`Model`,
`ModelVersion`, `ModelDirectory`) and a lookup facade (`ModelBrowser`).
Every operation delegates to a `Client` transport handle.

Embedding conventions:
- Incoming records (`Mapping[str, Any]`) are association lists
  `List (String × Value)` with first-match lookup; a Python dict has
  unique keys, and validation only performs key lookups, so first-match
  semantics is faithful.
- Pydantic `model_validate` becomes an `Option`-returning validator that
  extracts each declared field; a missing or ill-typed field is a
  validation failure (`none`).  The `app_id` field is declared with
  `AliasChoices("app_id", "project_id")`: the key `app_id` is consulted
  first, and `project_id` only when no `app_id` key is present.
- Remote calls are reified: each method returns the list of `ApiCall`
  values it issues, and the responses the remote would give are passed
  in as parameters (a response record, a created id, or the outcome of
  an edit call as `Except Err Unit`).  Exceptions raised by the Python
  code surface as `Except.error` / `Option.none`; mutation of `self` is
  explicit state passing, the returned entity being the post-state of
  the same object.
-/

/-- Values stored in the untyped records exchanged with the remote:
strings, timestamps (datetimes, as epoch numbers) and nested dicts. -/
inductive Value where
  | str : String → Value
  | nat : Nat → Value
  | dict : List (String × Value) → Value

/-- An untyped record (`Mapping[str, Any]`), as an association list. -/
abbrev Record := List (String × Value)

/-- First-match key lookup in an association list. -/
def lookupKey {α : Type} : List (String × α) → String → Option α
  | [], _ => none
  | (k, v) :: rest, key => if k = key then some v else lookupKey rest key

/-- Lookup of a key in a record (Python `data[key]` / pydantic field
extraction). -/
def Record.lookup (r : Record) (key : String) : Option Value :=
  lookupKey r key

/-- Pydantic `AliasChoices(k1, k2)`: the key `k1` is consulted first; the
key `k2` is used only when no `k1` key is present in the record. -/
def aliasLookup (r : Record) (k1 k2 : String) : Option Value :=
  match r.lookup k1 with
  | some v => some v
  | none => r.lookup k2

/-- A value expected to be a string field. -/
def asStr : Option Value → Option String
  | some (Value.str s) => some s
  | _ => none

/-- A value expected to be a datetime field (epoch number). -/
def asNat : Option Value → Option Nat
  | some (Value.nat n) => some n
  | _ => none

/-- A value expected to be a `dict[str, Any]` field. -/
def asDict : Option Value → Option (List (String × Value))
  | some (Value.dict d) => some d
  | _ => none

/-- Opaque handle to a `Directory` object passed through to the client
(`ikigai.typing.Directory`); the code under verification never inspects
it. -/
abbrev Directory := String

/-- Opaque handle to a `SubModelSpec` (`ikigai.specs`); `build` only
checks it against `None`. -/
abbrev SubModelSpec := String

/-- Opaque remote-call failure, propagated verbatim by this layer. -/
abbrev Err := String

/-- A request issued to the `Client` transport handle, one constructor
per client method used by `model.py`. -/
inductive ApiCall where
  | create_model (app_id : String) (name : String) (directory : Option Directory)
      (model_type : SubModelSpec) (description : String)
  | get_model (app_id : String) (model_id : String)
  | get_model_by_name (app_id : String) (name : String)
  | get_models_for_app (app_id : String) (directory_id : Option String)
  | edit_model (app_id : String) (model_id : String) (name : Option String)
      (directory : Option Directory) (description : Option String)
  | delete_model (app_id : String) (model_id : String)
  | get_model_versions (app_id : String) (model_id : String)
  | get_model_version (app_id : String) (version_id : String)
  | search_models_for_project (app_id : String) (query : String)
deriving DecidableEq, Repr

/-- The `Model` entity: field-for-field the pydantic model of
`model.py` (the private client handle carries no data and is dropped). -/
structure Model where
  app_id : String
  model_id : String
  name : String
  model_type : String
  sub_model_type : String
  description : String
  created_at : Nat
  modified_at : Nat
deriving DecidableEq, Repr

/-- Pydantic validation of a record against `Model`'s declared fields;
`app_id` accepts the alias `project_id` (tried second). -/
def Model.model_validate (data : Record) : Option Model := do
  let app_id ← asStr (aliasLookup data "app_id" "project_id")
  let model_id ← asStr (data.lookup "model_id")
  let name ← asStr (data.lookup "name")
  let model_type ← asStr (data.lookup "model_type")
  let sub_model_type ← asStr (data.lookup "sub_model_type")
  let description ← asStr (data.lookup "description")
  let created_at ← asNat (data.lookup "created_at")
  let modified_at ← asNat (data.lookup "modified_at")
  some { app_id, model_id, name, model_type, sub_model_type, description,
         created_at, modified_at }

/-- `Model.from_dict`: validate the record (the client handle it also
attaches carries no data). -/
def Model.from_dict (data : Record) : Option Model :=
  Model.model_validate data

/-- The accumulated configuration of a `ModelBuilder` (fields `_app_id`,
`_name`, `_directory`, `_model_type`, `_description`). -/
structure ModelBuilder where
  _app_id : String
  _name : String
  _directory : Option Directory
  _model_type : Option SubModelSpec
  _description : String
deriving DecidableEq, Repr

/-- `ModelBuilder.__init__`: name and description default to the empty
string, directory and model type to none. -/
def ModelBuilder.init (app_id : String) : ModelBuilder :=
  { _app_id := app_id, _name := "", _directory := none, _model_type := none,
    _description := "" }

/-- `ModelBuilder.new`: set the name, return the builder. -/
def ModelBuilder.new (b : ModelBuilder) (name : String) : ModelBuilder :=
  { b with _name := name }

/-- `ModelBuilder.directory`: set the directory, return the builder. -/
def ModelBuilder.directory (b : ModelBuilder) (directory : Directory) : ModelBuilder :=
  { b with _directory := some directory }

/-- `ModelBuilder.model_type`: set the model type, return the builder. -/
def ModelBuilder.model_type (b : ModelBuilder) (model_type : SubModelSpec) : ModelBuilder :=
  { b with _model_type := some model_type }

/-- `ModelBuilder.description`: set the description, return the builder. -/
def ModelBuilder.description (b : ModelBuilder) (description : String) : ModelBuilder :=
  { b with _description := description }

/-- `ModelBuilder.build`: raise `ValueError` when no model type was set;
otherwise issue `create_model` with the accumulated configuration, then
`get_model` on the returned id, and build a `Model` from the fetched
record.  `create_resp` is the model id the create call returns and
`fetch_resp` the record the fetch returns. -/
def ModelBuilder.build (b : ModelBuilder) (create_resp : String) (fetch_resp : Record) :
    List ApiCall × Except String Model :=
  match b._model_type with
  | none => ([], Except.error "Model type must be specified")
  | some mt =>
      ([ApiCall.create_model b._app_id b._name b._directory mt b._description,
        ApiCall.get_model b._app_id create_resp],
       match Model.from_dict fetch_resp with
       | some m => Except.ok m
       | none => Except.error "validation error")

/-- `Model.delete`: issue `delete_model`, return nothing; the object is
left untouched (further use holds a stale identifier). -/
def Model.delete (m : Model) : List ApiCall :=
  [ApiCall.delete_model m.app_id m.model_id]

/-- `Model.rename`: issue `edit_model` scoped by `(app_id, model_id)`
carrying only the new name; on success set `self.name` and return self
(the post-state); on failure the exception propagates before the local
assignment runs, so the state is unchanged.  `edit_result` is the
outcome of the remote call; the second component is the object state
after the call, the third the propagated error, if any. -/
def Model.rename (m : Model) (name : String) (edit_result : Except Err Unit) :
    List ApiCall × Model × Option Err :=
  ([ApiCall.edit_model m.app_id m.model_id (some name) none none],
   match edit_result with
   | Except.error e => (m, some e)
   | Except.ok _ => ({ m with name := name }, none))

/-- `Model.move`: issue `edit_model` carrying only the target directory;
no local field is assigned in either outcome. -/
def Model.move (m : Model) (directory : Directory) (edit_result : Except Err Unit) :
    List ApiCall × Model × Option Err :=
  ([ApiCall.edit_model m.app_id m.model_id none (some directory) none],
   match edit_result with
   | Except.error e => (m, some e)
   | Except.ok _ => (m, none))

/-- `Model.update_description`: issue `edit_model` carrying only the new
description; on success set `self.description`, on failure propagate
with the state unchanged. -/
def Model.update_description (m : Model) (description : String) (edit_result : Except Err Unit) :
    List ApiCall × Model × Option Err :=
  ([ApiCall.edit_model m.app_id m.model_id none none (some description)],
   match edit_result with
   | Except.error e => (m, some e)
   | Except.ok _ => ({ m with description := description }, none))

/-- `Model.describe`: pass-through fetch of the raw record. -/
def Model.describe (m : Model) (fetch_resp : Record) : List ApiCall × Record :=
  ([ApiCall.get_model m.app_id m.model_id], fetch_resp)

/-- The `ModelVersion` entity, field-for-field the pydantic model. -/
structure ModelVersion where
  app_id : String
  model_id : String
  version_id : String
  version : String
  hyperparameters : List (String × Value)
  metrics : List (String × Value)
  created_at : Nat
  modified_at : Nat

/-- `ModelVersion.name`: alias for `version` (the named protocol). -/
def ModelVersion.name (v : ModelVersion) : String :=
  v.version

/-- Pydantic validation of a record against `ModelVersion`'s fields;
`app_id` accepts the alias `project_id` (tried second). -/
def ModelVersion.model_validate (data : Record) : Option ModelVersion := do
  let app_id ← asStr (aliasLookup data "app_id" "project_id")
  let model_id ← asStr (data.lookup "model_id")
  let version_id ← asStr (data.lookup "version_id")
  let version ← asStr (data.lookup "version")
  let hyperparameters ← asDict (data.lookup "hyperparameters")
  let metrics ← asDict (data.lookup "metrics")
  let created_at ← asNat (data.lookup "created_at")
  let modified_at ← asNat (data.lookup "modified_at")
  some { app_id, model_id, version_id, version, hyperparameters, metrics,
         created_at, modified_at }

/-- `ModelVersion.from_dict`: validate the Python dict literal
`{"app_id": app_id, **data}` — the record's own entries shadow the
passed `app_id`.  With first-match lookup, appending the base binding
after `data` gives exactly that shadowing. -/
def ModelVersion.from_dict (app_id : String) (data : Record) : Option ModelVersion :=
  ModelVersion.model_validate (data ++ [("app_id", Value.str app_id)])

/-- Sequential construction over a generator: build each element in
listing order, raising (`none`) on the first failure. -/
def mapOption {α β : Type} (f : α → Option β) : List α → Option (List β)
  | [] => some []
  | x :: xs =>
      match f x with
      | none => none
      | some y =>
          match mapOption f xs with
          | none => none
          | some ys => some (y :: ys)

/-- Python dict assignment `d[k] = v`: replace in place when the key is
present (keeping its position), append otherwise. -/
def dictInsert {α : Type} (d : List (String × α)) (k : String) (v : α) :
    List (String × α) :=
  if k ∈ d.map Prod.fst then d.map (fun p => if p.1 = k then (k, v) else p)
  else d ++ [(k, v)]

/-- Fold a sequence of Python dict assignments into `d`. -/
def dictExtend {α : Type} (d : List (String × α)) : List (String × α) → List (String × α)
  | [] => d
  | p :: ps => dictExtend (dictInsert d p.1 p.2) ps

/-- A Python dict comprehension: insertion-ordered, later duplicate keys
overwrite in place. -/
def dictOfList {α : Type} (ps : List (String × α)) : List (String × α) :=
  dictExtend [] ps

/-- `Model.versions`: fetch the version records via
`get_model_versions`, build a `ModelVersion` from each (passing
`self.app_id`), and return the dict keyed by `version_id`.
`version_dicts` is the listing the remote returns; a record failing
validation raises (`Except.error`). -/
def Model.versions (m : Model) (version_dicts : List Record) :
    List ApiCall × Except String (List (String × ModelVersion)) :=
  ([ApiCall.get_model_versions m.app_id m.model_id],
   match mapOption (ModelVersion.from_dict m.app_id) version_dicts with
   | none => Except.error "validation error"
   | some vs => Except.ok (dictOfList (vs.map (fun v => (v.version_id, v)))))

/-- The `ModelBrowser` facade state: the owning app id (the client
handle carries no data). -/
structure ModelBrowser where
  app_id : String

/-- `ModelBrowser.search`: issue `search_models_for_project` with the
query, build a `Model` from each returned record, and return the dict
keyed by `model_id`.  `records` is the listing the remote search
returns. -/
def ModelBrowser.search (b : ModelBrowser) (query : String) (records : List Record) :
    List ApiCall × Except String (List (String × Model)) :=
  ([ApiCall.search_models_for_project b.app_id query],
   match mapOption Model.from_dict records with
   | none => Except.error "validation error"
   | some ms => Except.ok (dictOfList (ms.map (fun m => (m.model_id, m)))))

/-- Modelled from the spec: `ikigai.utils.DirectoryType` (not under
`src/`), the enumeration of directory kinds; the model kind is the
constant tag distinguishing model directories "from other directory
kinds managed elsewhere". -/
inductive DirectoryType where
  | MODEL
  | DATASET
  | FLOW
deriving DecidableEq, Repr

/-- Modelled from the spec: the transport search capability
`Client.search.search_models_for_project` (`ikigai.client`, not under
`src/`); per the spec an "empty query or no matches yields an empty
mapping", so an empty query returns no matching records. -/
structure SearchClient where
  search_models_for_project : (app_id : String) → (query : String) → List Record
  empty_query_no_matches : ∀ app_id, search_models_for_project app_id "" = []

/-- The `ModelDirectory` entity, field-for-field the pydantic model. -/
structure ModelDirectory where
  app_id : String
  directory_id : String
  name : String
deriving DecidableEq, Repr

/-- `ModelDirectory.type` property: always the model directory kind. -/
def ModelDirectory.type (_ : ModelDirectory) : DirectoryType :=
  DirectoryType.MODEL

/-- Pydantic validation of a record against `ModelDirectory`'s fields;
`app_id` accepts the alias `project_id` (tried second). -/
def ModelDirectory.model_validate (data : Record) : Option ModelDirectory := do
  let app_id ← asStr (aliasLookup data "app_id" "project_id")
  let directory_id ← asStr (data.lookup "directory_id")
  let name ← asStr (data.lookup "name")
  some { app_id, directory_id, name }

/-- `ModelDirectory.from_dict`: validate the record. -/
def ModelDirectory.from_dict (data : Record) : Option ModelDirectory :=
  ModelDirectory.model_validate data

/-- A value of the `NamedDirectoryDict` rendering: a string field or the
directory-kind tag. -/
inductive DirValue where
  | str : String → DirValue
  | dirType : DirectoryType → DirValue
deriving DecidableEq, Repr

/-- `ModelDirectory.to_dict`: the literal
`{"directory_id": ..., "type": ..., "name": ...}`. -/
def ModelDirectory.to_dict (d : ModelDirectory) : List (String × DirValue) :=
  [("directory_id", DirValue.str d.directory_id),
   ("type", DirValue.dirType d.type),
   ("name", DirValue.str d.name)]

/-! Lemmas about the Python dict comprehension model. -/

theorem keys_dictInsert_mem {α : Type} (d : List (String × α)) (k : String) (v : α)
    (h : k ∈ d.map Prod.fst) :
    (dictInsert d k v).map Prod.fst = d.map Prod.fst := by
  simp only [dictInsert, if_pos h, List.map_map]
  apply List.map_congr_left
  intro p _
  by_cases hpk : p.1 = k
  · simp [Function.comp, hpk]
  · simp [Function.comp, hpk]

theorem keys_dictInsert_not_mem {α : Type} (d : List (String × α)) (k : String) (v : α)
    (h : k ∉ d.map Prod.fst) :
    (dictInsert d k v).map Prod.fst = d.map Prod.fst ++ [k] := by
  simp [dictInsert, h]

theorem mem_keys_dictInsert {α : Type} (d : List (String × α)) (k : String) (v : α)
    (x : String) :
    x ∈ (dictInsert d k v).map Prod.fst ↔ x ∈ d.map Prod.fst ∨ x = k := by
  by_cases h : k ∈ d.map Prod.fst
  · rw [keys_dictInsert_mem d k v h]
    constructor
    · exact fun hx => Or.inl hx
    · rintro (hx | rfl)
      · exact hx
      · exact h
  · rw [keys_dictInsert_not_mem d k v h]
    simp

theorem nodup_keys_dictInsert {α : Type} (d : List (String × α)) (k : String) (v : α)
    (h : (d.map Prod.fst).Nodup) :
    ((dictInsert d k v).map Prod.fst).Nodup := by
  by_cases hk : k ∈ d.map Prod.fst
  · rw [keys_dictInsert_mem d k v hk]; exact h
  · rw [keys_dictInsert_not_mem d k v hk]
    simp [List.nodup_append, h, hk]

theorem mem_keys_dictExtend {α : Type} (ps : List (String × α)) :
    ∀ (d : List (String × α)) (x : String),
      x ∈ (dictExtend d ps).map Prod.fst ↔
        x ∈ d.map Prod.fst ∨ x ∈ ps.map Prod.fst := by
  induction ps with
  | nil => intro d x; simp [dictExtend]
  | cons p ps ih =>
      intro d x
      rw [dictExtend, ih, mem_keys_dictInsert]
      simp [or_assoc]

theorem nodup_keys_dictExtend {α : Type} (ps : List (String × α)) :
    ∀ (d : List (String × α)), (d.map Prod.fst).Nodup →
      ((dictExtend d ps).map Prod.fst).Nodup := by
  induction ps with
  | nil => intro d h; exact h
  | cons p ps ih =>
      intro d h
      exact ih _ (nodup_keys_dictInsert d p.1 p.2 h)

theorem dictInsert_fresh {α : Type} (d : List (String × α)) (k : String) (v : α)
    (h : k ∉ d.map Prod.fst) :
    dictInsert d k v = d ++ [(k, v)] := by
  simp [dictInsert, h]

theorem dictExtend_fresh {α : Type} (ps : List (String × α)) :
    ∀ (d : List (String × α)), (ps.map Prod.fst).Nodup →
      (∀ x ∈ ps.map Prod.fst, x ∉ d.map Prod.fst) →
      dictExtend d ps = d ++ ps := by
  induction ps with
  | nil => intro d _ _; simp [dictExtend]
  | cons p ps ih =>
      intro d hnodup hfresh
      rw [List.map_cons] at hnodup hfresh
      have hk : p.1 ∉ d.map Prod.fst := hfresh p.1 (List.mem_cons_self p.1 _)
      rw [dictExtend, dictInsert_fresh d p.1 p.2 hk]
      have hhead : p.1 ∉ ps.map Prod.fst := (List.nodup_cons.mp hnodup).1
      have hnodup' : (ps.map Prod.fst).Nodup := (List.nodup_cons.mp hnodup).2
      rw [ih (d ++ [(p.1, p.2)]) hnodup']
      · simp
      · intro x hx
        have hxd : x ∉ d.map Prod.fst := hfresh x (List.mem_cons_of_mem _ hx)
        have hxk : x ≠ p.1 := fun hEq => hhead (hEq ▸ hx)
        simp [hxd, hxk]

theorem mem_keys_dictOfList {α : Type} (ps : List (String × α)) (x : String) :
    x ∈ (dictOfList ps).map Prod.fst ↔ x ∈ ps.map Prod.fst := by
  rw [dictOfList, mem_keys_dictExtend]
  simp

theorem nodup_keys_dictOfList {α : Type} (ps : List (String × α)) :
    ((dictOfList ps).map Prod.fst).Nodup :=
  nodup_keys_dictExtend ps [] (by simp)

theorem dictOfList_of_nodup_keys {α : Type} (ps : List (String × α))
    (h : (ps.map Prod.fst).Nodup) : dictOfList ps = ps := by
  rw [dictOfList, dictExtend_fresh ps [] h (by simp)]
  simp

/-- Every element produced by `mapOption` comes from one input element:
the output length equals the input length. -/
theorem mapOption_length {α β : Type} (f : α → Option β) :
    ∀ (l : List α) (res : List β), mapOption f l = some res → res.length = l.length := by
  intro l
  induction l with
  | nil =>
      intro res h
      simp [mapOption] at h
      simp [h.symm]
  | cons x xs ih =>
      intro res h
      rw [mapOption] at h
      cases hx : f x with
      | none => rw [hx] at h; exact absurd h (by simp)
      | some y =>
          rw [hx] at h
          cases hxs : mapOption f xs with
          | none => rw [hxs] at h; exact absurd h (by simp)
          | some ys =>
              rw [hxs] at h
              simp at h
              rw [h.symm]
              simp [ih ys hxs]

/-- Lookup in a concatenation: the left list shadows the right one. -/
theorem lookupKey_append {α : Type} (l1 l2 : List (String × α)) (k : String) :
    lookupKey (l1 ++ l2) k =
      match lookupKey l1 k with
      | some v => some v
      | none => lookupKey l2 k := by
  induction l1 with
  | nil => simp [lookupKey]
  | cons p ps ih =>
      by_cases h : p.1 = k
      · simp [lookupKey, h]
      · simp [lookupKey, h, ih]

/-- C1: a `ModelBuilder` whose model-type field was never set fails
`build` with the validation error "Model type must be specified",
whatever the name, directory and description fields hold, and issues no
remote call at all (in particular no create and no fetch). -/
theorem build_without_model_type_fails (b : ModelBuilder) (create_resp : String)
    (fetch_resp : Record) (h : b._model_type = none) :
    ModelBuilder.build b create_resp fetch_resp =
      ([], Except.error "Model type must be specified") := by
  simp [ModelBuilder.build, h]

/-- Witness for C1: a builder with name, directory and description all
set but no model type fails with the validation error and an empty call
trace. -/
theorem build_without_model_type_fails_witness :
    ModelBuilder.build
      ((((ModelBuilder.init "app-1").new "My Model").directory "dir-1").description "words")
      "mid-1" [] = ([], Except.error "Model type must be specified") :=
  build_without_model_type_fails
    ((((ModelBuilder.init "app-1").new "My Model").directory "dir-1").description "words")
    "mid-1" [] rfl

/-- C2: a `ModelBuilder` whose model-type field is set issues exactly
one `create_model` carrying the accumulated configuration (app id,
name, directory, model type, description), then exactly one `get_model`
for the id the create returned, and returns the `Model` built from the
fetched record; a fresh builder defaults name and description to the
empty string and the directory to none. -/
theorem build_with_model_type (b : ModelBuilder) (mt : SubModelSpec)
    (create_resp : String) (fetch_resp : Record) (m : Model)
    (h1 : b._model_type = some mt) (h2 : Model.from_dict fetch_resp = some m) :
    ModelBuilder.build b create_resp fetch_resp =
      ([ApiCall.create_model b._app_id b._name b._directory mt b._description,
        ApiCall.get_model b._app_id create_resp],
       Except.ok m) ∧
    ModelBuilder.init b._app_id =
      { _app_id := b._app_id, _name := "", _directory := none,
        _model_type := none, _description := "" } := by
  constructor
  · simp [ModelBuilder.build, h1, h2]
  · rfl

/-- Witness for C2: a fresh builder with only the model type set issues
the create call with default name, directory and description, then the
fetch, and returns the model validated from the fetched record. -/
theorem build_with_model_type_witness :
    ModelBuilder.build ((ModelBuilder.init "app-1").model_type "linear") "mid-1"
        [("app_id", Value.str "app-1"), ("model_id", Value.str "mid-1"),
         ("name", Value.str "n"), ("model_type", Value.str "linear"),
         ("sub_model_type", Value.str "lasso"), ("description", Value.str "d"),
         ("created_at", Value.nat 1), ("modified_at", Value.nat 2)] =
      ([ApiCall.create_model "app-1" "" none "linear" "",
        ApiCall.get_model "app-1" "mid-1"],
       Except.ok { app_id := "app-1", model_id := "mid-1", name := "n",
                   model_type := "linear", sub_model_type := "lasso",
                   description := "d", created_at := 1, modified_at := 2 }) ∧
    ModelBuilder.init "app-1" =
      { _app_id := "app-1", _name := "", _directory := none,
        _model_type := none, _description := "" } :=
  build_with_model_type ((ModelBuilder.init "app-1").model_type "linear") "linear"
    "mid-1" _ _ rfl rfl

/-- C3: `rename` issues one `edit_model` scoped by `(app_id, model_id)`
carrying the new name; on success it sets the local `name` field (all
other fields unchanged) and returns the entity, and a second `rename`
with the same value issues the same call and leaves the state at the
same value (idempotence of the observable local state). -/
theorem rename_sets_name_and_is_idempotent (m : Model) (name : String) :
    Model.rename m name (Except.ok ()) =
      ([ApiCall.edit_model m.app_id m.model_id (some name) none none],
       { m with name := name }, none) ∧
    Model.rename ((Model.rename m name (Except.ok ())).2.1) name (Except.ok ()) =
      ([ApiCall.edit_model m.app_id m.model_id (some name) none none],
       (Model.rename m name (Except.ok ())).2.1, none) :=
  ⟨rfl, rfl⟩

/-- C4: `move` issues one `edit_model` carrying the target directory and
(on success) returns the entity with every local field — app_id,
model_id, name, model_type, sub_model_type, description, created_at,
modified_at, i.e. the whole record — unchanged; no directory field is
tracked in `Model` at all. -/
theorem move_keeps_all_local_fields (m : Model) (directory : Directory) :
    Model.move m directory (Except.ok ()) =
      ([ApiCall.edit_model m.app_id m.model_id none (some directory) none],
       m, none) :=
  rfl

/-- C9: when the remote edit fails, `rename` and `update_description`
propagate the failure unmodified and leave the local mirror fields (the
whole local record) unchanged — the local assignment runs only after a
successful remote call, and no default is substituted. -/
theorem remote_failure_leaves_state_unchanged (m : Model) (name text e : String) :
    Model.rename m name (Except.error e) =
      ([ApiCall.edit_model m.app_id m.model_id (some name) none none], m, some e) ∧
    Model.update_description m text (Except.error e) =
      ([ApiCall.edit_model m.app_id m.model_id none none (some text)], m, some e) :=
  ⟨rfl, rfl⟩

/-- C7: `to_dict` returns a record with exactly the keys
`directory_id`, `type` and `name`, in that order; `directory_id` and
`name` carry the instance's fields, and `type` is the same constant
model-directory tag for any two instances. -/
theorem to_dict_exact_keys_and_constant_type (d e : ModelDirectory) :
    (ModelDirectory.to_dict d).map Prod.fst = ["directory_id", "type", "name"] ∧
    lookupKey (ModelDirectory.to_dict d) "directory_id" =
      some (DirValue.str d.directory_id) ∧
    lookupKey (ModelDirectory.to_dict d) "name" = some (DirValue.str d.name) ∧
    lookupKey (ModelDirectory.to_dict d) "type" =
      some (DirValue.dirType DirectoryType.MODEL) ∧
    ModelDirectory.type d = ModelDirectory.type e :=
  ⟨rfl, rfl, rfl, rfl, rfl⟩

/-- C5: `versions` issues exactly one `get_model_versions` call; when
every listed record validates, it returns the dict keyed by
`version_id`, whose key set is exactly the set of version ids of the
listing (no omissions), with no duplicate keys, one `ModelVersion`
built per remote record, and — the listing's ids being distinct — the
entries in the original listing order. -/
theorem versions_keyed_by_version_id (m : Model) (version_dicts : List Record)
    (vs : List ModelVersion)
    (h : mapOption (ModelVersion.from_dict m.app_id) version_dicts = some vs) :
    (Model.versions m version_dicts).1 =
      [ApiCall.get_model_versions m.app_id m.model_id] ∧
    (Model.versions m version_dicts).2 =
      Except.ok (dictOfList (vs.map (fun v => (v.version_id, v)))) ∧
    ((dictOfList (vs.map (fun v => (v.version_id, v)))).map Prod.fst).toFinset =
      (vs.map ModelVersion.version_id).toFinset ∧
    ((dictOfList (vs.map (fun v => (v.version_id, v)))).map Prod.fst).Nodup ∧
    vs.length = version_dicts.length ∧
    ((vs.map ModelVersion.version_id).Nodup →
      dictOfList (vs.map (fun v => (v.version_id, v))) =
        vs.map (fun v => (v.version_id, v))) := by
  refine ⟨rfl, ?_, ?_, nodup_keys_dictOfList _, mapOption_length _ _ _ h, ?_⟩
  · simp [Model.versions, h]
  · ext x
    simp only [List.mem_toFinset]
    rw [mem_keys_dictOfList]
    simp [List.map_map, Function.comp]
  · intro hnodup
    apply dictOfList_of_nodup_keys
    simpa [List.map_map, Function.comp] using hnodup

/-- Witness for C5: one listed version record, validated and keyed by
its version id. -/
theorem versions_keyed_by_version_id_witness :
    (Model.versions
        { app_id := "a", model_id := "m1", name := "n", model_type := "t",
          sub_model_type := "st", description := "d", created_at := 1,
          modified_at := 2 }
        [[("model_id", Value.str "m1"), ("version_id", Value.str "v1"),
          ("version", Value.str "one"), ("hyperparameters", Value.dict []),
          ("metrics", Value.dict []), ("created_at", Value.nat 1),
          ("modified_at", Value.nat 2)]]).1 =
      [ApiCall.get_model_versions "a" "m1"] ∧
    (Model.versions
        { app_id := "a", model_id := "m1", name := "n", model_type := "t",
          sub_model_type := "st", description := "d", created_at := 1,
          modified_at := 2 }
        [[("model_id", Value.str "m1"), ("version_id", Value.str "v1"),
          ("version", Value.str "one"), ("hyperparameters", Value.dict []),
          ("metrics", Value.dict []), ("created_at", Value.nat 1),
          ("modified_at", Value.nat 2)]]).2 =
      Except.ok (dictOfList
        (([{ app_id := "a", model_id := "m1", version_id := "v1", version := "one",
             hyperparameters := [], metrics := [], created_at := 1,
             modified_at := 2 }] : List ModelVersion).map
          (fun v => (v.version_id, v)))) ∧
    ((dictOfList
        (([{ app_id := "a", model_id := "m1", version_id := "v1", version := "one",
             hyperparameters := [], metrics := [], created_at := 1,
             modified_at := 2 }] : List ModelVersion).map
          (fun v => (v.version_id, v)))).map Prod.fst).toFinset =
      (([{ app_id := "a", model_id := "m1", version_id := "v1", version := "one",
           hyperparameters := [], metrics := [], created_at := 1,
           modified_at := 2 }] : List ModelVersion).map
        ModelVersion.version_id).toFinset ∧
    ((dictOfList
        (([{ app_id := "a", model_id := "m1", version_id := "v1", version := "one",
             hyperparameters := [], metrics := [], created_at := 1,
             modified_at := 2 }] : List ModelVersion).map
          (fun v => (v.version_id, v)))).map Prod.fst).Nodup ∧
    ([{ app_id := "a", model_id := "m1", version_id := "v1", version := "one",
        hyperparameters := [], metrics := [], created_at := 1,
        modified_at := 2 }] : List ModelVersion).length =
      [[("model_id", Value.str "m1"), ("version_id", Value.str "v1"),
        ("version", Value.str "one"), ("hyperparameters", Value.dict []),
        ("metrics", Value.dict []), ("created_at", Value.nat 1),
        ("modified_at", Value.nat 2)]].length ∧
    ((([{ app_id := "a", model_id := "m1", version_id := "v1", version := "one",
          hyperparameters := [], metrics := [], created_at := 1,
          modified_at := 2 }] : List ModelVersion).map
        ModelVersion.version_id).Nodup →
      dictOfList
        (([{ app_id := "a", model_id := "m1", version_id := "v1", version := "one",
             hyperparameters := [], metrics := [], created_at := 1,
             modified_at := 2 }] : List ModelVersion).map
          (fun v => (v.version_id, v))) =
        ([{ app_id := "a", model_id := "m1", version_id := "v1", version := "one",
            hyperparameters := [], metrics := [], created_at := 1,
            modified_at := 2 }] : List ModelVersion).map
          (fun v => (v.version_id, v))) :=
  versions_keyed_by_version_id
    { app_id := "a", model_id := "m1", name := "n", model_type := "t",
      sub_model_type := "st", description := "d", created_at := 1, modified_at := 2 }
    [[("model_id", Value.str "m1"), ("version_id", Value.str "v1"),
      ("version", Value.str "one"), ("hyperparameters", Value.dict []),
      ("metrics", Value.dict []), ("created_at", Value.nat 1),
      ("modified_at", Value.nat 2)]]
    [{ app_id := "a", model_id := "m1", version_id := "v1", version := "one",
       hyperparameters := [], metrics := [], created_at := 1, modified_at := 2 }]
    rfl

/-- C6: with the spec-modelled transport search (an empty query returns
no records), `search` on an empty query or on a query the remote
returns no records for yields the empty mapping with no failure, after
exactly one search call; in general, each returned record that
validates yields one `Model`, one built per matching record. -/
theorem search_empty_query_or_no_match_is_empty (sc : SearchClient)
    (b : ModelBrowser) (query : String) (records : List Record) (ms : List Model)
    (hq : query = "" ∨ sc.search_models_for_project b.app_id query = [])
    (hval : mapOption Model.from_dict records = some ms) :
    ModelBrowser.search b query (sc.search_models_for_project b.app_id query) =
      ([ApiCall.search_models_for_project b.app_id query], Except.ok []) ∧
    (ModelBrowser.search b query records).2 =
      Except.ok (dictOfList (ms.map (fun m => (m.model_id, m)))) ∧
    ms.length = records.length := by
  have hempty : sc.search_models_for_project b.app_id query = [] := by
    rcases hq with hq | hq
    · rw [hq]; exact sc.empty_query_no_matches b.app_id
    · exact hq
  refine ⟨?_, ?_, mapOption_length _ _ _ hval⟩
  · rw [hempty]; rfl
  · simp [ModelBrowser.search, hval]

/-- Witness for C6: a transport whose search always returns no records;
the empty query yields the empty mapping and no failure. -/
theorem search_empty_query_or_no_match_is_empty_witness :
    ModelBrowser.search { app_id := "a" } ""
        (SearchClient.search_models_for_project
          { search_models_for_project := fun _ _ => [],
            empty_query_no_matches := fun _ => rfl } "a" "") =
      ([ApiCall.search_models_for_project "a" ""], Except.ok []) ∧
    (ModelBrowser.search { app_id := "a" } "" []).2 =
      Except.ok (dictOfList (([] : List Model).map (fun m => (m.model_id, m)))) ∧
    ([] : List Model).length = ([] : List Record).length :=
  search_empty_query_or_no_match_is_empty
    { search_models_for_project := fun _ _ => [],
      empty_query_no_matches := fun _ => rfl }
    { app_id := "a" } "" [] [] (Or.inl rfl) rfl

/-- C8: at the validation layer shared by the three entities, a record
carrying `project_id` in place of `app_id` is accepted (all other
required fields present) and the constructed entity's `app_id` equals
the record's `project_id` value. -/
theorem project_id_alias_accepted (pid mid nm mt smt ds vid ver did : String)
    (c mo : Nat) (hp mets : List (String × Value)) :
    Model.from_dict
        [("project_id", Value.str pid), ("model_id", Value.str mid),
         ("name", Value.str nm), ("model_type", Value.str mt),
         ("sub_model_type", Value.str smt), ("description", Value.str ds),
         ("created_at", Value.nat c), ("modified_at", Value.nat mo)] =
      some { app_id := pid, model_id := mid, name := nm, model_type := mt,
             sub_model_type := smt, description := ds, created_at := c,
             modified_at := mo } ∧
    ModelVersion.model_validate
        [("project_id", Value.str pid), ("model_id", Value.str mid),
         ("version_id", Value.str vid), ("version", Value.str ver),
         ("hyperparameters", Value.dict hp), ("metrics", Value.dict mets),
         ("created_at", Value.nat c), ("modified_at", Value.nat mo)] =
      some { app_id := pid, model_id := mid, version_id := vid, version := ver,
             hyperparameters := hp, metrics := mets, created_at := c,
             modified_at := mo } ∧
    ModelDirectory.from_dict
        [("project_id", Value.str pid), ("directory_id", Value.str did),
         ("name", Value.str nm)] =
      some { app_id := pid, directory_id := did, name := nm } :=
  ⟨rfl, rfl, rfl⟩

/-- C10 counterexample: `ModelVersion.from_dict` called with app id "A"
on a record whose only owner key is `project_id` with value "B" builds
a version whose `app_id` is the passed "A", not the record's "B" — the
merged dict always carries an `app_id` key, which the alias consults
first, so a `project_id` record entry never overrides the argument. -/
theorem version_project_id_key_ignored_cex :
    Option.map ModelVersion.app_id
        (ModelVersion.from_dict "A"
          [("project_id", Value.str "B"), ("model_id", Value.str "m1"),
           ("version_id", Value.str "v1"), ("version", Value.str "one"),
           ("hyperparameters", Value.dict []), ("metrics", Value.dict []),
           ("created_at", Value.nat 1), ("modified_at", Value.nat 2)]) =
      some "A" ∧
    ("A" : String) ≠ "B" :=
  ⟨rfl, by decide⟩

/-- C10 (amended): in `ModelVersion.from_dict`, only a record entry
keyed `app_id` (with a string value) overrides the passed `app_id`
argument; in every other case — in particular when the record carries
only `project_id` — the constructed version's `app_id` is the passed
argument. -/
theorem from_dict_app_id_precedence (a : String) (data : Record) (mv : ModelVersion)
    (h : ModelVersion.from_dict a data = some mv) :
    mv.app_id =
      match data.lookup "app_id" with
      | some (Value.str v) => v
      | _ => a := by
  have hmerged : Record.lookup (data ++ [("app_id", Value.str a)]) "app_id" =
      match data.lookup "app_id" with
      | some v => some v
      | none => some (Value.str a) := by
    simp only [Record.lookup]
    rw [lookupKey_append]
    cases lookupKey data "app_id" with
    | some v => rfl
    | none => rfl
  unfold ModelVersion.from_dict ModelVersion.model_validate aliasLookup at h
  rw [hmerged] at h
  simp only [Option.bind_eq_bind, Option.bind_eq_some, Option.some.injEq] at h
  obtain ⟨a1, h1, a2, -, a3, -, a4, -, a5, -, a6, -, a7, -, a8, -, hmv⟩ := h
  subst hmv
  cases hv : data.lookup "app_id" with
  | none =>
      rw [hv] at h1
      simp only [asStr] at h1
      simpa using h1.symm
  | some v =>
      cases v with
      | str s =>
          rw [hv] at h1
          simp only [asStr] at h1
          simpa using h1.symm
      | nat n =>
          rw [hv] at h1
          simp [asStr] at h1
      | dict l =>
          rw [hv] at h1
          simp [asStr] at h1

/-- Witness for C10 (amended): an `app_id` entry in the record wins over
the passed argument. -/
theorem from_dict_app_id_precedence_witness :
    ModelVersion.app_id
        { app_id := "B", model_id := "m1", version_id := "v1", version := "one",
          hyperparameters := [], metrics := [], created_at := 1, modified_at := 2 } =
      (match Record.lookup
          [("app_id", Value.str "B"), ("model_id", Value.str "m1"),
           ("version_id", Value.str "v1"), ("version", Value.str "one"),
           ("hyperparameters", Value.dict []), ("metrics", Value.dict []),
           ("created_at", Value.nat 1), ("modified_at", Value.nat 2)] "app_id" with
       | some (Value.str v) => v
       | _ => "A") :=
  from_dict_app_id_precedence "A"
    [("app_id", Value.str "B"), ("model_id", Value.str "m1"),
     ("version_id", Value.str "v1"), ("version", Value.str "one"),
     ("hyperparameters", Value.dict []), ("metrics", Value.dict []),
     ("created_at", Value.nat 1), ("modified_at", Value.nat 2)]
    { app_id := "B", model_id := "m1", version_id := "v1", version := "one",
      hyperparameters := [], metrics := [], created_at := 1, modified_at := 2 }
    rfl
